import Mathlib

/-!
Shallow embedding of the ephemeral anonymous-chat client
(`src/app/page.tsx`) and its SQL store scripts
(`src/scripts/001_create_messages_table.sql`,
`src/scripts/003_add_reply_feature.sql`).

Timestamps are modelled as integer milliseconds since the epoch
(JavaScript `Date.getTime()`); message ids are strings (server UUIDs or
the client's `temp-<millis>` placeholders).
-/

namespace AnonChat

/-- The `Message` record of `page.tsx`:
`{ id: string; content: string; created_at: string; reply_to: string | null }`,
with `created_at` modelled as the epoch milliseconds the ISO string denotes. -/
structure Message where
  id : String
  content : String
  created_at : Int
  reply_to : Option String
deriving DecidableEq, Repr

/-- The component state touched by the handlers under scrutiny:
`messages`, `newMessage`, `isLoading`, `replyingTo`. -/
structure ChatState where
  messages : List Message
  newMessage : String
  isLoading : Bool
  replyingTo : Option Message
deriving DecidableEq, Repr

/-- Two minutes in milliseconds. -/
def twoMinutesMs : Int := 2 * 60 * 1000

/-- The predicate of `removeExpiredMessages`:
`diffMinutes = (now.getTime() - messageTime.getTime()) / 1000 / 60` and the
message is kept when `diffMinutes < 2`.  The JavaScript division is exact
real division on millisecond differences, embedded over `ℚ`. -/
def isLive (now : Int) (msg : Message) : Bool :=
  decide ((((now - msg.created_at : Int) : ℚ)) / 1000 / 60 < 2)

/-- `removeExpiredMessages` (page.tsx lines 28–37): filters the current
list, keeping messages younger than two minutes. -/
def removeExpiredMessages (now : Int) (current : List Message) : List Message :=
  current.filter (fun msg => isLive now msg)

theorem isLive_iff (now : Int) (msg : Message) :
    isLive now msg = true ↔ now - msg.created_at < twoMinutesMs := by
  unfold isLive twoMinutesMs
  rw [decide_eq_true_iff]
  rw [div_div]
  norm_num
  rw [div_lt_iff₀ (by norm_num : (0:ℚ) < 60000)]
  constructor
  · intro h
    exact_mod_cast h
  · intro h
    exact_mod_cast h

/-- The realtime INSERT handler (page.tsx lines 73–81): if some message in
the current list already has the incoming id the list is returned
unchanged, otherwise the incoming message is prepended. -/
def insertHandler (incoming : Message) (current : List Message) : List Message :=
  if current.any (fun msg => msg.id = incoming.id) then current
  else incoming :: current

/-- The realtime DELETE handler (page.tsx lines 83–94): drops every message
whose id equals the deleted row's id. -/
def deleteHandler (deletedId : String) (current : List Message) : List Message :=
  current.filter (fun msg => msg.id ≠ deletedId)

/-- Descending order on `created_at`: the `ORDER BY created_at DESC`
comparator of the initial fetch (`.order("created_at", { ascending: false })`). -/
def byNewest (a b : Message) : Prop := b.created_at ≤ a.created_at

instance : DecidableRel byNewest := fun a b => Int.decLe b.created_at a.created_at

instance : IsTotal Message byNewest := ⟨fun a b => le_total b.created_at a.created_at⟩

instance : IsTrans Message byNewest :=
  ⟨fun _ _ _ hab hbc => le_trans hbc hab⟩

/-- `fetchMessages` (page.tsx lines 108–122) as the query it issues over the
store's `messages` table: `WHERE created_at >= now - 2 minutes`
(`.gte("created_at", twoMinutesAgo)`), `ORDER BY created_at DESC`
(modelled by a sort with `byNewest`), `LIMIT 100`. -/
def fetchMessages (now : Int) (table : List Message) : List Message :=
  (((table.filter (fun m => now - twoMinutesMs ≤ m.created_at)).insertionSort byNewest).take 100)

/-- On fetch success the component does `setMessages(data)`: the local list
is replaced by the query result. -/
def applyFetch (s : ChatState) (data : List Message) : ChatState :=
  { s with messages := data }

/-- `delete_old_messages` (003_add_reply_feature.sql / page.tsx rpc):
`DELETE FROM public.messages WHERE created_at < NOW() - INTERVAL '2 minutes'`;
the table keeps exactly the rows the WHERE clause does not match. -/
def delete_old_messages (now : Int) (table : List Message) : List Message :=
  table.filter (fun r => ¬ (r.created_at < now - twoMinutesMs))

/-- The store-level effect of deleting row `d` under the schema of
`003_add_reply_feature.sql`: the row is removed and, by
`reply_to UUID REFERENCES public.messages(id) ON DELETE SET NULL`, every
remaining row whose `reply_to` referenced `d` has it set to null. -/
def storeDelete (d : String) (table : List Message) : List Message :=
  (table.filter (fun r => r.id ≠ d)).map
    (fun r => if r.reply_to = some d then { r with reply_to := none } else r)

/-- `getRepliedMessage` (page.tsx lines 229–232): `if (!replyToId) return null`
(false for `null` and for the empty string, the two falsy values of
`string | null`), else `messages.find((msg) => msg.id === replyToId)`. -/
def getRepliedMessage (messages : List Message) (replyToId : Option String) :
    Option Message :=
  match replyToId with
  | none => none
  | some rid => if rid = "" then none else messages.find? (fun msg => msg.id = rid)

/-- The render of message `m` (page.tsx lines 278–310) shows the
"Replying to:" preview block exactly when `getRepliedMessage(message.reply_to)`
is non-null (`{repliedMessage && (…)}`). -/
def rendersReplyPreview (messages : List Message) (m : Message) : Bool :=
  (getRepliedMessage messages m.reply_to).isSome

/-- `String.prototype.trim`: strips whitespace from both ends of the string
(embedded over the character list, with `Char.isWhitespace` as the
whitespace class). -/
def jsTrim (s : String) : String :=
  ⟨((s.data.dropWhile Char.isWhitespace).reverse.dropWhile Char.isWhitespace).reverse⟩

/-- `temp-${Date.now()}`: the optimistic message's temporary id. -/
def tempId (now : Int) : String := "temp-" ++ toString now

/-- `replyingTo?.id || null` / `currentReplyTo?.id || null`: the id of the
reply target, with the empty string (falsy) collapsed to null. -/
def optReplyId : Option Message → Option String
  | none => none
  | some r => if r.id = "" then none else some r.id

/-- The context `handleSendMessage` holds across its `await`:
`messageContent`, `optimisticMessage` and `currentReplyTo`. -/
structure SendCtx where
  content : String
  optimistic : Message
  savedReply : Option Message
deriving DecidableEq, Repr

/-- The `optimisticMessage` built at page.tsx lines 131–136:
`{ id: temp-${Date.now()}, content: messageContent,
created_at: new Date().toISOString(), reply_to: replyingTo?.id || null }`,
where `messageContent = newMessage.trim()`. -/
def optimisticMsg (now : Int) (s : ChatState) : Message :=
  { id := tempId now, content := jsTrim s.newMessage, created_at := now,
    reply_to := optReplyId s.replyingTo }

/-- The synchronous prefix of `handleSendMessage` (page.tsx lines 124–141),
up to the insert request: `none` when the guard
`if (!newMessage.trim() || isLoading) return` fires, otherwise the state
after `setIsLoading(true)`, `setNewMessage("")`, `setReplyingTo(null)` and
prepending the optimistic message, together with the saved context
(`messageContent`, `optimisticMessage`, `currentReplyTo`). -/
def sendBegin (now : Int) (s : ChatState) : Option (ChatState × SendCtx) :=
  if jsTrim s.newMessage = "" ∨ s.isLoading then none
  else
    some ({ messages := optimisticMsg now s :: s.messages, newMessage := "",
            isLoading := true, replyingTo := none },
          { content := jsTrim s.newMessage, optimistic := optimisticMsg now s,
            savedReply := s.replyingTo })

/-- The error branch of `handleSendMessage` (page.tsx lines 152–156 and 161):
the optimistic id is filtered out, the input text is restored to
`messageContent`, the reply target to `currentReplyTo`, and loading ends. -/
def sendError (ctx : SendCtx) (s : ChatState) : ChatState :=
  { messages := s.messages.filter (fun msg => msg.id ≠ ctx.optimistic.id),
    newMessage := ctx.content,
    isLoading := false,
    replyingTo := ctx.savedReply }

/-- The success branch of `handleSendMessage` (page.tsx lines 157–159 and 161):
every message carrying the optimistic id is replaced by the
server-confirmed row `data`, and loading ends. -/
def sendSuccess (ctx : SendCtx) (data : Message) (s : ChatState) : ChatState :=
  { s with
    messages := s.messages.map
      (fun msg => if msg.id = ctx.optimistic.id then data else msg),
    isLoading := false }

/-- Outcome of the insert request `supabase.from("messages").insert(…)`. -/
inductive InsertResult where
  | ok (data : Message)
  | err
deriving DecidableEq, Repr

/-- `handleSendMessage` run to completion with no interleaved realtime
event, given the insert outcome; the Bool records whether an insert
request was issued. -/
def handleSendMessage (now : Int) (result : InsertResult) (s : ChatState) :
    ChatState × Bool :=
  match sendBegin now s with
  | none => (s, false)
  | some (mid, ctx) =>
    match result with
    | .err => (sendError ctx mid, true)
    | .ok data => (sendSuccess ctx data mid, true)

/-- The four themes of `page.tsx`. -/
inductive Theme where
  | dark | light | golden | sonali
deriving DecidableEq, Repr

/-- `const themes: Theme[] = ["dark", "light", "golden", "sonali"]`. -/
def themesList : List Theme := [.dark, .light, .golden, .sonali]

/-- `toggleTheme` (page.tsx lines 164–171):
`themes[(themes.indexOf(theme) + 1) % themes.length]`. -/
def toggleTheme (t : Theme) : Theme :=
  (themesList.getD ((themesList.indexOf t + 1) % themesList.length) .dark)

/-- The theme together with the persisted `localStorage` slot `"theme"`. -/
structure ThemeEnv where
  theme : Theme
  stored : Option Theme
deriving DecidableEq, Repr

/-- The full toggle action: `setTheme(nextTheme)` and
`localStorage.setItem("theme", nextTheme)`. -/
def toggleThemeAction (e : ThemeEnv) : ThemeEnv :=
  let next := toggleTheme e.theme
  { theme := next, stored := some next }

/-- The load effect (page.tsx lines 49–55): a truthy saved theme is
restored, otherwise the initial `"dark"` state stands. -/
def loadTheme (stored : Option Theme) : Theme :=
  match stored with
  | some t => t
  | none => .dark

/-- Number of messages in `l` carrying id `i`. -/
def countId (i : String) (l : List Message) : Nat :=
  l.countP (fun m => m.id = i)

/-! ## Helper lemmas -/

theorem map_replaceId_eq_self (i : String) (d : Message) (l : List Message)
    (h : ∀ m ∈ l, m.id ≠ i) :
    l.map (fun msg => if msg.id = i then d else msg) = l := by
  induction l with
  | nil => rfl
  | cons a tl ih =>
    simp only [List.map_cons]
    rw [if_neg (h a (by simp)), ih (fun m hm => h m (List.mem_cons_of_mem a hm))]

theorem filter_neId_eq_self (i : String) (l : List Message)
    (h : ∀ m ∈ l, m.id ≠ i) :
    l.filter (fun msg => msg.id ≠ i) = l := by
  rw [List.filter_eq_self]
  intro a ha
  simpa using h a ha

theorem countId_eq_zero {i : String} {l : List Message}
    (h : ∀ m ∈ l, m.id ≠ i) : countId i l = 0 := by
  rw [countId, List.countP_eq_zero]
  intro a ha
  simpa using h a ha

/-! ## Claim theorems -/

/-- C1: `removeExpiredMessages` keeps a message iff its age `now − created_at`
is strictly below two minutes; survivors keep their original order (the
result is a sublist of the input); in particular a message 119 seconds old
is kept and one 121 seconds old is removed. -/
theorem removeExpiredMessages_spec (now : Int) (l : List Message) :
    (removeExpiredMessages now l).Sublist l ∧
    (∀ m, m ∈ removeExpiredMessages now l ↔
        m ∈ l ∧ now - m.created_at < twoMinutesMs) ∧
    (∀ m, m ∈ l → now - m.created_at = 119 * 1000 →
        m ∈ removeExpiredMessages now l) ∧
    (∀ m, m ∈ l → now - m.created_at = 121 * 1000 →
        m ∉ removeExpiredMessages now l) := by
  have hmem : ∀ m, m ∈ removeExpiredMessages now l ↔
      m ∈ l ∧ now - m.created_at < twoMinutesMs := by
    intro m
    rw [removeExpiredMessages, List.mem_filter, isLive_iff]
  refine ⟨List.filter_sublist l, hmem, ?_, ?_⟩
  · intro m hm hage
    refine (hmem m).mpr ⟨hm, ?_⟩
    rw [hage, twoMinutesMs]
    norm_num
  · intro m hm hage hin
    have h2 := ((hmem m).mp hin).2
    rw [hage, twoMinutesMs] at h2
    norm_num at h2

/-- Witness for C1: with `now = 121000`, the message created at `t = 2000`
(age 119 s) survives and the one created at `t = 0` (age 121 s) does not. -/
theorem removeExpiredMessages_spec_witness :
    ({ id := "a", content := "x", created_at := 2000, reply_to := none } : Message) ∈
      removeExpiredMessages 121000
        [{ id := "a", content := "x", created_at := 2000, reply_to := none },
         { id := "b", content := "y", created_at := 0, reply_to := none }] ∧
    ({ id := "b", content := "y", created_at := 0, reply_to := none } : Message) ∉
      removeExpiredMessages 121000
        [{ id := "a", content := "x", created_at := 2000, reply_to := none },
         { id := "b", content := "y", created_at := 0, reply_to := none }] :=
  ⟨(removeExpiredMessages_spec 121000
      [{ id := "a", content := "x", created_at := 2000, reply_to := none },
       { id := "b", content := "y", created_at := 0, reply_to := none }]).2.2.1
      _ (by decide) (by decide),
   (removeExpiredMessages_spec 121000
      [{ id := "a", content := "x", created_at := 2000, reply_to := none },
       { id := "b", content := "y", created_at := 0, reply_to := none }]).2.2.2
      _ (by decide) (by decide)⟩

/-- C4: `delete_old_messages` keeps exactly the rows whose `created_at` is
not older than `now − 2 minutes` (it deletes exactly the strictly older
rows), and it is idempotent at a fixed time point. -/
theorem delete_old_messages_spec (now : Int) (t : List Message) :
    (∀ r, r ∈ delete_old_messages now t ↔
        r ∈ t ∧ ¬ (r.created_at < now - twoMinutesMs)) ∧
    delete_old_messages now (delete_old_messages now t) =
      delete_old_messages now t := by
  constructor
  · intro r
    simp [delete_old_messages, List.mem_filter]
  · simp only [delete_old_messages, List.filter_filter, Bool.and_self]

/-- C9: when the trimmed input is empty or a send is already in flight,
`handleSendMessage` returns the state unchanged and issues no insert. -/
theorem handleSendMessage_guard_noop (now : Int) (r : InsertResult)
    (s : ChatState) (h : jsTrim s.newMessage = "" ∨ s.isLoading = true) :
    handleSendMessage now r s = (s, false) := by
  unfold handleSendMessage
  rw [sendBegin, if_pos h]

/-- Witness for C9: a whitespace-only input leaves the state untouched. -/
theorem handleSendMessage_guard_noop_witness :
    handleSendMessage 0 .err
        { messages := [], newMessage := "   ", isLoading := false,
          replyingTo := none } =
      ({ messages := [], newMessage := "   ", isLoading := false,
         replyingTo := none }, false) :=
  handleSendMessage_guard_noop 0 .err _ (Or.inl (by decide))

/-- C10: the realtime INSERT handler preserves pairwise distinctness of
message ids: it prepends the incoming message only when its id is absent
and otherwise returns the list unchanged. -/
theorem insertHandler_distinct (incoming : Message) (l : List Message)
    (h : l.Pairwise (fun a b => a.id ≠ b.id)) :
    (insertHandler incoming l).Pairwise (fun a b => a.id ≠ b.id) := by
  rw [insertHandler]
  split
  · exact h
  · rename_i hany
    simp only [List.any_eq_true, decide_eq_true_eq, not_exists, not_and] at hany
    exact List.Pairwise.cons (fun b hb => Ne.symm (hany b hb)) h

/-- Witness for C10: prepending a genuinely new id keeps ids distinct. -/
theorem insertHandler_distinct_witness :
    ([{ id := "a", content := "x", created_at := 0, reply_to := none }] :
        List Message).Pairwise (fun a b => a.id ≠ b.id) ∧
    (insertHandler { id := "b", content := "y", created_at := 1, reply_to := none }
        [{ id := "a", content := "x", created_at := 0, reply_to := none }]).Pairwise
      (fun a b => a.id ≠ b.id) :=
  ⟨by decide,
   insertHandler_distinct
     { id := "b", content := "y", created_at := 1, reply_to := none }
     [{ id := "a", content := "x", created_at := 0, reply_to := none }]
     (by decide)⟩

/-- C8: `toggleTheme` cycles dark → light → golden → sonali → dark, four
toggles are the identity, every toggle writes the new theme to the
persisted slot, and a persisted theme is restored on load. -/
theorem toggleTheme_spec :
    toggleTheme .dark = .light ∧ toggleTheme .light = .golden ∧
    toggleTheme .golden = .sonali ∧ toggleTheme .sonali = .dark ∧
    (∀ t, toggleTheme (toggleTheme (toggleTheme (toggleTheme t))) = t) ∧
    (∀ e, (toggleThemeAction e).stored = some ((toggleThemeAction e).theme) ∧
        loadTheme ((toggleThemeAction e).stored) = (toggleThemeAction e).theme) := by
  refine ⟨rfl, rfl, rfl, rfl, ?_, ?_⟩
  · intro t
    cases t <;> rfl
  · intro e
    exact ⟨rfl, rfl⟩

/-- C3: on insert failure `handleSendMessage` rolls back completely: the
message list returns to its pre-send value (exactly the optimistic entry,
identified by its temporary id, is removed), the input text is restored to
the trimmed content that was sent, and the reply target is restored. -/
theorem sendError_rollback (now : Int) (s : ChatState)
    (htrim : jsTrim s.newMessage ≠ "") (hload : s.isLoading = false)
    (hfresh : ∀ m ∈ s.messages, m.id ≠ tempId now) :
    handleSendMessage now .err s =
      ({ messages := s.messages, newMessage := jsTrim s.newMessage,
         isLoading := false, replyingTo := s.replyingTo }, true) := by
  have hguard : ¬ (jsTrim s.newMessage = "" ∨ s.isLoading = true) := by
    rw [hload]
    simp [htrim]
  have hfilter : (optimisticMsg now s :: s.messages).filter
      (fun msg => msg.id ≠ (optimisticMsg now s).id) = s.messages := by
    rw [List.filter_cons_of_neg (by simp), filter_neId_eq_self]
    intro m hm
    exact hfresh m hm
  unfold handleSendMessage
  rw [sendBegin, if_neg hguard]
  show (sendError _ _, true) = _
  rw [sendError]
  simp only [hfilter]

/-- Witness for C3: a failed send restores the list, the trimmed text and
the reply target. -/
theorem sendError_rollback_witness :
    handleSendMessage 7 .err
        { messages := [{ id := "m1", content := "old", created_at := 0, reply_to := none }],
          newMessage := " hey ", isLoading := false,
          replyingTo := some { id := "m1", content := "old", created_at := 0, reply_to := none } } =
      ({ messages := [{ id := "m1", content := "old", created_at := 0, reply_to := none }],
         newMessage := "hey", isLoading := false,
         replyingTo := some { id := "m1", content := "old", created_at := 0, reply_to := none } }, true) :=
  sendError_rollback 7
    { messages := [{ id := "m1", content := "old", created_at := 0, reply_to := none }],
      newMessage := " hey ", isLoading := false,
      replyingTo := some { id := "m1", content := "old", created_at := 0, reply_to := none } }
    (by decide) rfl (by decide)

/-- C2 counterexample: when the realtime insert echo is handled before the
insert response, the echo's server id does not match the optimistic
temporary id, so the echo is prepended; the response then also replaces
the optimistic entry with the server row, leaving TWO copies with the
server id `"u1"` (so "exactly one copy … regardless of order" is false). -/
theorem sendEchoFirst_duplicate_cex :
    sendBegin 5
        { messages := [], newMessage := "hi", isLoading := false,
          replyingTo := none } =
      some ({ messages := [{ id := "temp-5", content := "hi", created_at := 5, reply_to := none }],
              newMessage := "", isLoading := true, replyingTo := none },
            { content := "hi",
              optimistic := { id := "temp-5", content := "hi", created_at := 5, reply_to := none },
              savedReply := none }) ∧
    insertHandler { id := "u1", content := "hi", created_at := 6, reply_to := none }
        [{ id := "temp-5", content := "hi", created_at := 5, reply_to := none }] =
      [{ id := "u1", content := "hi", created_at := 6, reply_to := none },
       { id := "temp-5", content := "hi", created_at := 5, reply_to := none }] ∧
    countId "u1"
      ((sendSuccess
          { content := "hi",
            optimistic := { id := "temp-5", content := "hi", created_at := 5, reply_to := none },
            savedReply := none }
          { id := "u1", content := "hi", created_at := 6, reply_to := none }
          { messages :=
              [{ id := "u1", content := "hi", created_at := 6, reply_to := none },
               { id := "temp-5", content := "hi", created_at := 5, reply_to := none }],
            newMessage := "", isLoading := true, replyingTo := none }).messages) = 2 := by
  decide

/-- C2 (amended): sending non-empty trimmed content prepends the optimistic
message to the top of the list immediately; when the insert response is
handled before the realtime echo, the response replaces the optimistic
entry by the server row and the later echo is deduplicated by id, so
exactly one copy of the message remains. -/
theorem sendResponseBeforeEcho_unique (now : Int) (s : ChatState) (data : Message)
    (htrim : jsTrim s.newMessage ≠ "") (hload : s.isLoading = false)
    (hfreshTemp : ∀ m ∈ s.messages, m.id ≠ tempId now)
    (hfreshSrv : ∀ m ∈ s.messages, m.id ≠ data.id) :
    (sendBegin now s).map (fun p => p.1.messages) =
      some (optimisticMsg now s :: s.messages) ∧
    (handleSendMessage now (.ok data) s).1.messages = data :: s.messages ∧
    insertHandler data (data :: s.messages) = data :: s.messages ∧
    countId data.id (data :: s.messages) = 1 := by
  have hguard : ¬ (jsTrim s.newMessage = "" ∨ s.isLoading = true) := by
    rw [hload]
    simp [htrim]
  have hbegin : sendBegin now s =
      some ({ messages := optimisticMsg now s :: s.messages, newMessage := "",
              isLoading := true, replyingTo := none },
            { content := jsTrim s.newMessage, optimistic := optimisticMsg now s,
              savedReply := s.replyingTo }) := by
    rw [sendBegin, if_neg hguard]
  have hmap : (optimisticMsg now s :: s.messages).map
      (fun msg => if msg.id = (optimisticMsg now s).id then data else msg) =
      data :: s.messages := by
    rw [List.map_cons, if_pos rfl,
      map_replaceId_eq_self (optimisticMsg now s).id data s.messages
        (fun m hm => hfreshTemp m hm)]
  refine ⟨by rw [hbegin]; rfl, ?_, ?_, ?_⟩
  · unfold handleSendMessage
    rw [hbegin]
    exact hmap
  · rw [insertHandler, if_pos (by simp)]
  · rw [countId, List.countP_cons, List.countP_eq_zero.mpr, if_pos (by simp)]
    intro a ha
    simpa using hfreshSrv a ha

/-- Witness for C2 (amended): from an empty list, sending `"hi"` and then
handling the echo after the response leaves exactly one copy. -/
theorem sendResponseBeforeEcho_unique_witness :
    (handleSendMessage 5
        (.ok { id := "u1", content := "hi", created_at := 6, reply_to := none })
        { messages := [], newMessage := "hi", isLoading := false,
          replyingTo := none }).1.messages =
      [{ id := "u1", content := "hi", created_at := 6, reply_to := none }] ∧
    countId "u1" [{ id := "u1", content := "hi", created_at := 6, reply_to := none }] = 1 :=
  ⟨(sendResponseBeforeEcho_unique 5
      { messages := [], newMessage := "hi", isLoading := false, replyingTo := none }
      { id := "u1", content := "hi", created_at := 6, reply_to := none }
      (by decide) rfl (by decide) (by decide)).2.1,
   (sendResponseBeforeEcho_unique 5
      { messages := [], newMessage := "hi", isLoading := false, replyingTo := none }
      { id := "u1", content := "hi", created_at := 6, reply_to := none }
      (by decide) rfl (by decide) (by decide)).2.2.2⟩

/-- C5: the initial fetch returns at most 100 messages, all drawn from the
table and no older than two minutes, sorted newest first; on success the
local list is replaced by exactly this result. -/
theorem fetchMessages_spec (now : Int) (table : List Message) (s : ChatState) :
    (fetchMessages now table).length ≤ 100 ∧
    (∀ m ∈ fetchMessages now table,
        m ∈ table ∧ now - twoMinutesMs ≤ m.created_at) ∧
    (fetchMessages now table).Pairwise byNewest ∧
    (applyFetch s (fetchMessages now table)).messages = fetchMessages now table := by
  refine ⟨List.length_take_le _ _, ?_, ?_, rfl⟩
  · intro m hm
    rw [fetchMessages] at hm
    have h1 := (List.take_sublist 100 _).subset hm
    have h2 := (List.perm_insertionSort byNewest _).subset h1
    have h3 := List.mem_filter.mp h2
    exact ⟨h3.1, by simpa using h3.2⟩
  · rw [fetchMessages]
    exact List.Pairwise.sublist (List.take_sublist _ _)
      (List.sorted_insertionSort byNewest _)

/-- Witness for C5: with `now = 120000` the fetch keeps the two fresh rows
and each returned row is from the table and within the window. -/
theorem fetchMessages_spec_witness :
    ({ id := "a", content := "x", created_at := 100, reply_to := none } : Message) ∈
      fetchMessages 120000
        [{ id := "a", content := "x", created_at := 100, reply_to := none },
         { id := "b", content := "y", created_at := 50, reply_to := none },
         { id := "c", content := "z", created_at := -200000, reply_to := none }] ∧
    ({ id := "a", content := "x", created_at := 100, reply_to := none } : Message) ∈
        [{ id := "a", content := "x", created_at := 100, reply_to := none },
         { id := "b", content := "y", created_at := 50, reply_to := none },
         { id := "c", content := "z", created_at := -200000, reply_to := none }] ∧
      (120000 : Int) - twoMinutesMs ≤
        ({ id := "a", content := "x", created_at := 100, reply_to := none } : Message).created_at :=
  ⟨by decide,
   (fetchMessages_spec 120000
      [{ id := "a", content := "x", created_at := 100, reply_to := none },
       { id := "b", content := "y", created_at := 50, reply_to := none },
       { id := "c", content := "z", created_at := -200000, reply_to := none }]
      { messages := [], newMessage := "", isLoading := false, replyingTo := none }).2.1
      _ (by decide)⟩

/-- C6: the client DELETE handler removes exactly the messages with the
deleted id, keeping every other message in order; at the store, deleting
row `d` removes it and nulls `reply_to` on every remaining row that
referenced it (`ON DELETE SET NULL`). -/
theorem deleteHandler_storeDelete_spec (d : String) (l t : List Message) :
    (∀ m, m ∈ deleteHandler d l ↔ m ∈ l ∧ m.id ≠ d) ∧
    (deleteHandler d l).Sublist l ∧
    (∀ r ∈ storeDelete d t, r.id ≠ d ∧ r.reply_to ≠ some d) ∧
    (∀ r ∈ t, r.id ≠ d →
        (if r.reply_to = some d then { r with reply_to := none } else r) ∈
          storeDelete d t) := by
  refine ⟨?_, List.filter_sublist l, ?_, ?_⟩
  · intro m
    simp [deleteHandler, List.mem_filter]
  · intro r hr
    rw [storeDelete] at hr
    obtain ⟨r0, hr0, rfl⟩ := List.mem_map.mp hr
    have hid : r0.id ≠ d := by simpa using (List.mem_filter.mp hr0).2
    by_cases hrt : r0.reply_to = some d
    · rw [if_pos hrt]
      exact ⟨hid, by simp⟩
    · rw [if_neg hrt]
      exact ⟨hid, hrt⟩
  · intro r hr hid
    rw [storeDelete]
    exact List.mem_map_of_mem _ (List.mem_filter.mpr ⟨hr, by simpa using hid⟩)

/-- Witness for C6: deleting `"d1"` removes it client-side, and the row
that replied to it survives in the store with `reply_to` nulled. -/
theorem deleteHandler_storeDelete_spec_witness :
    deleteHandler "d1"
        [{ id := "d1", content := "x", created_at := 0, reply_to := none },
         { id := "r1", content := "y", created_at := 1, reply_to := some "d1" }] =
      [{ id := "r1", content := "y", created_at := 1, reply_to := some "d1" }] ∧
    (if ({ id := "r1", content := "y", created_at := 1, reply_to := some "d1" } : Message).reply_to = some "d1"
        then { ({ id := "r1", content := "y", created_at := 1, reply_to := some "d1" } : Message) with reply_to := none }
        else { id := "r1", content := "y", created_at := 1, reply_to := some "d1" }) ∈
      storeDelete "d1"
        [{ id := "d1", content := "x", created_at := 0, reply_to := none },
         { id := "r1", content := "y", created_at := 1, reply_to := some "d1" }] :=
  ⟨by decide,
   (deleteHandler_storeDelete_spec "d1" []
      [{ id := "d1", content := "x", created_at := 0, reply_to := none },
       { id := "r1", content := "y", created_at := 1, reply_to := some "d1" }]).2.2.2
      _ (by decide) (by decide)⟩

/-- C7 counterexample: a message whose `reply_to` is the (non-null) empty
string, with a message of id `""` present in the list, renders no preview:
`if (!replyToId) return null` treats the empty string like null. -/
theorem rendersReplyPreview_cex :
    ({ id := "", content := "a", created_at := 0, reply_to := some "" } : Message).reply_to ≠ none ∧
    (∃ r ∈ [({ id := "", content := "a", created_at := 0, reply_to := some "" } : Message)],
        some r.id = ({ id := "", content := "a", created_at := 0, reply_to := some "" } : Message).reply_to) ∧
    rendersReplyPreview
        [({ id := "", content := "a", created_at := 0, reply_to := some "" } : Message)]
        { id := "", content := "a", created_at := 0, reply_to := some "" } = false := by
  decide

/-- C7 (amended): the reply preview is rendered for `m` iff `m.reply_to` is
non-null AND non-empty and some message with that id is in the local list;
for a null or empty `reply_to`, or an absent target, no preview renders. -/
theorem rendersReplyPreview_iff (msgs : List Message) (m : Message) :
    rendersReplyPreview msgs m = true ↔
      ∃ rid, m.reply_to = some rid ∧ rid ≠ "" ∧ ∃ r ∈ msgs, r.id = rid := by
  rw [rendersReplyPreview]
  cases hrt : m.reply_to with
  | none => simp [getRepliedMessage]
  | some rid =>
    simp only [getRepliedMessage]
    by_cases hempty : rid = ""
    · subst hempty
      simp
    · rw [if_neg hempty]
      simp only [List.find?_isSome, decide_eq_true_eq, Option.some.injEq]
      constructor
      · rintro ⟨x, hx, hid⟩
        exact ⟨rid, rfl, hempty, x, hx, hid⟩
      · rintro ⟨rid2, heq, -, x, hx, hid⟩
        exact ⟨x, hx, by rw [hid, heq]⟩

/-- Witness for C7 (amended): a reply to the present non-empty id `"p"`
renders the preview. -/
theorem rendersReplyPreview_iff_witness :
    rendersReplyPreview
        [{ id := "p", content := "parent", created_at := 0, reply_to := none },
         { id := "q", content := "child", created_at := 1, reply_to := some "p" }]
        { id := "q", content := "child", created_at := 1, reply_to := some "p" } = true :=
  (rendersReplyPreview_iff
      [{ id := "p", content := "parent", created_at := 0, reply_to := none },
       { id := "q", content := "child", created_at := 1, reply_to := some "p" }]
      { id := "q", content := "child", created_at := 1, reply_to := some "p" }).mpr
    ⟨"p", rfl, by decide,
     { id := "p", content := "parent", created_at := 0, reply_to := none },
     by decide, rfl⟩

end AnonChat
